import Mathlib

/-!
Verification of the configuration core of the wings daemon
(package `config`, file `src/config/config.go`).

The Go code is shallowly embedded: the package-level mutable state
(`_config`, `_jwtAlgo`, `_debugViaFlag`) becomes an explicit state record
threaded through the operations; Go pointers that may be nil become
`Option`; fallible operations return `Except`; external effects
(OS user lookup, command execution, directory listing, `os.Chown`,
`ioutil.WriteFile` failures) are supplied as explicit environment
parameters, and the observable side effects (commands issued, chown
attempts, logged warnings, file states visible to external readers)
are returned as data.
-/

namespace Config

/-- The `DefaultLocation` constant from `src/config/config.go`. -/
def DefaultLocation : String := "/etc/pterodactyl/config.yml"

/-- Errors produced by external collaborators (filesystem, OS). The Go code
treats them as opaque `error` values, so a plain tag string suffices. -/
structure IOErr where
  msg : String
deriving DecidableEq, Repr

/-- The numeric user/group identity stored in the configuration.
Modelled from the spec: the struct type of `c.System.User` is declared
outside `src/config/config.go`; its `Uid`/`Gid` fields are the only parts
the verified code touches (`setSystemUser`, spec section 3 "System
Identity": a numeric user/group identifier pair). -/
structure SystemUserIds where
  Uid : Int
  Gid : Int
deriving DecidableEq, Repr

/-- The `SystemConfiguration` struct.
Modelled from the spec: its declaration lives outside
`src/config/config.go`; the fields below are exactly those the verified
code reads or writes (`c.System.Username`, `c.System.User`,
`c.System.Data`, `c.System.SetPermissionsOnBoot`). -/
structure SystemConfiguration where
  Username : String
  User : SystemUserIds
  Data : String
  SetPermissionsOnBoot : Bool
deriving DecidableEq, Repr

/-- SSL section of `ApiConfiguration` (anonymous struct in the Go source). -/
structure SslConfiguration where
  Enabled : Bool
  CertificateFile : String
  KeyFile : String
deriving DecidableEq, Repr

/-- `ApiConfiguration` from `src/config/config.go`. -/
structure ApiConfiguration where
  Host : String
  Port : Int
  Ssl : SslConfiguration
  UploadLimit : Int
deriving DecidableEq, Repr

/-- The anonymous `Throttles` struct embedded in `Configuration`. -/
structure ThrottleConfiguration where
  KillAtCount : Int
  DecaySeconds : Int
  BytesPerInterval : Int
  CheckInterval : Int
deriving DecidableEq, Repr

/-- The `Configuration` struct from `src/config/config.go`.

The embedded `sync.RWMutex` and `writeLock sync.Mutex` are not data;
locking is reflected in the sequential embedding of the operations.
The `Docker DockerConfiguration` field is omitted: `DockerConfiguration`
is declared outside `src/config/config.go` and no code under verification
reads or writes any part of it.
`path` is the unexported field tracking where the file was loaded from;
being unexported it is not serialized by `yaml.Marshal`. -/
structure Configuration where
  path : String
  Debug : Bool
  Uuid : String
  AuthenticationTokenId : String
  AuthenticationToken : String
  Api : ApiConfiguration
  System : SystemConfiguration
  DiskCheckTimeout : Int
  Throttles : ThrottleConfiguration
  PanelLocation : String
deriving DecidableEq, Repr

/-- The derived JWT signing key (`jwt.NewHS256([]byte(token))`).
`jwt.NewHS256` deterministically derives key material from the token and
allocates a fresh object each call; `allocId` records that allocation
identity so that "the key was recomputed" (a fresh pointer) is
distinguishable from "the key is unchanged" (the same pointer). -/
structure HMACSHA where
  allocId : Nat
  key : String
deriving DecidableEq, Repr

/-- The package-level mutable state of `src/config/config.go`:
`var _config *Configuration`, `var _jwtAlgo *jwt.HMACSHA`,
`var _debugViaFlag bool`. `nextAllocId` is the allocator counter backing
the `allocId` field of freshly built `HMACSHA` values. -/
structure GlobalState where
  config : Option Configuration
  jwtAlgo : Option HMACSHA
  debugViaFlag : Bool
  nextAllocId : Nat
deriving DecidableEq, Repr

/-- The zero value of the package-level state: both pointers are nil and
the debug flag is false before any call runs. -/
def initialState : GlobalState :=
  { config := none, jwtAlgo := none, debugViaFlag := false, nextAllocId := 0 }

/-- The guard of the recomputation branch in `Set`
(`_config == nil || _config.AuthenticationToken != c.AuthenticationToken`),
with Go's short-circuit evaluation. -/
def needsRecompute (s : GlobalState) (c : Configuration) : Bool :=
  match s.config with
  | none => true
  | some old => old.AuthenticationToken != c.AuthenticationToken

/-- `Set` from `src/config/config.go`: under the global write lock,
recompute `_jwtAlgo` from the incoming token when the guard fires, then
publish the new configuration. -/
def Set (s : GlobalState) (c : Configuration) : GlobalState :=
  if needsRecompute s c then
    { s with
      config := some c
      jwtAlgo := some { allocId := s.nextAllocId, key := c.AuthenticationToken }
      nextAllocId := s.nextAllocId + 1 }
  else
    { s with config := some c }

/-- `SetDebugViaFlag` from `src/config/config.go`. -/
def SetDebugViaFlag (s : GlobalState) (d : Bool) : GlobalState :=
  { s with debugViaFlag := d }

/-- `Get` from `src/config/config.go`: returns the `_config` pointer under
a read lock; nil (no snapshot yet) is `none`. -/
def Get (s : GlobalState) : Option Configuration :=
  s.config

/-- `GetJwtAlgorithm` from `src/config/config.go`. -/
def GetJwtAlgorithm (s : GlobalState) : Option HMACSHA :=
  s.jwtAlgo

/-- The package-level operations callers can invoke against the global
state, used to talk about histories of calls ("before the first Set"). -/
inductive StoreOp where
  | set (c : Configuration)
  | setDebugViaFlag (d : Bool)
deriving DecidableEq

/-- Run a sequence of store operations from a starting state. -/
def runOps (s : GlobalState) : List StoreOp → GlobalState
  | [] => s
  | StoreOp.set c :: rest => runOps (Set s c) rest
  | StoreOp.setDebugViaFlag d :: rest => runOps (SetDebugViaFlag s d) rest

/-- An operation history contains no completed `Set` call. -/
def noSet (ops : List StoreOp) : Prop :=
  ∀ c : Configuration, StoreOp.set c ∉ ops

/-! ### Persistence: `WriteToDisk` -/

/-- The document produced by `yaml.Marshal(&ccopy)`: exactly the exported
fields of `Configuration`, under their yaml keys. The unexported `path`
field is not serialized. -/
structure PersistedDoc where
  debug : Bool
  uuid : String
  token_id : String
  token : String
  api : ApiConfiguration
  system : SystemConfiguration
  disk_check_timeout : Int
  throttles : ThrottleConfiguration
  remote : String
deriving DecidableEq, Repr

/-- `yaml.Marshal` on a `Configuration` value. Marshalling these plain
struct types cannot fail, so it is a total function; it is injective on
the exported fields, so two marshaled documents are equal exactly when
those fields agree. -/
def yamlMarshal (c : Configuration) : PersistedDoc :=
  { debug := c.Debug
    uuid := c.Uuid
    token_id := c.AuthenticationTokenId
    token := c.AuthenticationToken
    api := c.Api
    system := c.System
    disk_check_timeout := c.DiskCheckTimeout
    throttles := c.Throttles
    remote := c.PanelLocation }

/-- Errors `WriteToDisk` can return. -/
inductive WriteErr where
  | pathNotConfigured
  | ioError (e : IOErr)
deriving DecidableEq, Repr

/-- One result of a `WriteToDisk` call.

`mem` is the in-memory snapshot the receiver pointer refers to after the
call returns. `observable` is the sequence of states of the on-disk file
that a concurrent reader outside this process can observe during the
call: `ioutil.WriteFile` opens the destination with
O_WRONLY|O_CREATE|O_TRUNC and then writes the bytes, so the file passes
through the truncated (empty, `none`) state before the new content
appears. -/
structure WriteResult where
  mem : Configuration
  res : Except WriteErr Unit
  observable : List (Option PersistedDoc)
deriving Repr

/-- `WriteToDisk` from `src/config/config.go`.

`dvf` is the package-level `_debugViaFlag`; `fsFail` says whether the
underlying `ioutil.WriteFile` call fails (an external condition);
`oldFile` is the complete content of the destination file before the
call. The body mirrors the source statement by statement: take a value
copy `ccopy` of the snapshot, clear its `Debug` when the flag override is
active, fail when no path is configured, marshal the copy, and write the
bytes to `c.path` in place (no temporary file, no rename). All mutation
targets `ccopy`, so `mem` is the unchanged receiver. -/
def WriteToDisk (dvf : Bool) (fsFail : Option IOErr) (oldFile : Option PersistedDoc)
    (c : Configuration) : WriteResult :=
  let ccopy := c
  let ccopy := if dvf then { ccopy with Debug := false } else ccopy
  if c.path = "" then
    { mem := c, res := .error .pathNotConfigured, observable := [oldFile] }
  else
    let b := yamlMarshal ccopy
    match fsFail with
    | some e => { mem := c, res := .error (.ioError e), observable := [oldFile, none] }
    | none => { mem := c, res := .ok (), observable := [oldFile, none, some b] }

/-! ### `strconv.Atoi` -/

/-- The two error classes of `strconv.Atoi`. -/
inductive AtoiErr where
  | syntaxError
  | rangeError
deriving DecidableEq, Repr

/-- Accumulate the value of a decimal digit run; `none` on the first
non-digit character. -/
def digitsValAux : Nat → List Char → Option Nat
  | acc, [] => some acc
  | acc, ch :: cs => if ch.isDigit then digitsValAux (10 * acc + (ch.toNat - 48)) cs else none

/-- Value of a non-empty all-digit character run, `none` otherwise. -/
def digitsVal? : List Char → Option Nat
  | [] => none
  | cs => digitsValAux 0 cs

/-- Largest value of Go's 64-bit `int`. -/
def intMax64 : Int := 2 ^ 63 - 1

/-- Smallest value of Go's 64-bit `int`. -/
def intMin64 : Int := -(2 ^ 63)

/-- Strip an optional leading sign, reporting whether it was `-`. -/
def splitSign : List Char → Bool × List Char
  | '+' :: rest => (false, rest)
  | '-' :: rest => (true, rest)
  | cs => (false, cs)

/-- `strconv.Atoi`: an optional sign followed by one or more ASCII digits
parses to its value; anything else yields `(0, ErrSyntax)`; a value
outside the 64-bit `int` range yields the nearest bound with
`ErrRange`. -/
def goAtoi (s : String) : Int × Option AtoiErr :=
  match digitsVal? (splitSign s.data).snd with
  | none => (0, some .syntaxError)
  | some n =>
    let v : Int := if (splitSign s.data).fst then -(n : Int) else (n : Int)
    if v < intMin64 then (intMin64, some .rangeError)
    else if v > intMax64 then (intMax64, some .rangeError)
    else (v, none)

/-! ### Identity provisioning: `EnsurePterodactylUser` / `setSystemUser` -/

/-- The fields of `os/user.User` the verified code reads. -/
structure OSUser where
  Uid : String
  Gid : String
  Username : String
deriving DecidableEq, Repr

/-- Outcome classes of `user.Lookup`: the distinguished
`user.UnknownUserError` (which triggers the creation path) versus any
other failure. -/
inductive LookupErr where
  | unknownUser
  | other (e : IOErr)
deriving DecidableEq, Repr

/-- A command handed to `exec.Command(prog, args...)`. -/
structure Cmd where
  prog : String
  args : List String
deriving DecidableEq, Repr

/-- The operating-system environment `EnsurePterodactylUser` interacts
with: account lookup by name, the `osrelease` ID string, and whether a
given executed command fails. The account database is mutated only by
the creation commands, so `lookup` answers every call made before they
run and `lookupAfterCreate` answers the re-lookup made after them; when
no command is issued the database is unchanged and `lookup` stays
authoritative. -/
structure OSEnv where
  lookup : String → Except LookupErr OSUser
  lookupAfterCreate : String → Except LookupErr OSUser
  osRelease : Except IOErr String
  execFail : String → List String → Option IOErr

/-- `getSystemName` from `src/config/config.go`: the `ID` entry of the
parsed os-release file, or the read error. -/
def getSystemName (env : OSEnv) : Except IOErr String :=
  env.osRelease

/-- Errors surfaced by `EnsurePterodactylUser`. In Go all of these are
plain `error` values; the constructors record which statement produced
them. -/
inductive ProvErr where
  | lookup (e : LookupErr)
  | sysName (e : IOErr)
  | exec (e : IOErr)
  | persist (e : WriteErr)
deriving DecidableEq, Repr

/-- `setSystemUser` from `src/config/config.go`: convert the record's
textual Uid/Gid with `strconv.Atoi`, discarding the parse errors, store
name and numeric ids into the snapshot under its lock, and persist via
`WriteToDisk`. Returns the updated snapshot and the write outcome. -/
def setSystemUser (dvf : Bool) (fsFail : Option IOErr) (oldFile : Option PersistedDoc)
    (c : Configuration) (u : OSUser) : Configuration × Except WriteErr Unit :=
  let uid := (goAtoi u.Uid).fst
  let gid := (goAtoi u.Gid).fst
  let c' := { c with
    System := { c.System with Username := u.Username, User := { Uid := uid, Gid := gid } } }
  (c', (WriteToDisk dvf fsFail oldFile c').res)

/-- The observable outcome of one `EnsurePterodactylUser` call: the Go
return pair `(*user.User, error)` as `user`/`err`, the commands issued to
the identity command executor in order, and the in-memory snapshot after
the call. -/
structure EnsureResult where
  user : Option OSUser
  err : Option ProvErr
  cmds : List Cmd
  mem : Configuration
deriving Repr

/-- The `exec.Command` invocation Go builds from a command string:
`split := strings.Split(command, " ")` then
`exec.Command(split[0], split[1:]...)`. -/
def cmdOf (command : String) : Cmd :=
  { prog := (command.splitOn " ").headD "", args := (command.splitOn " ").tail }

/-- The tail of the creation path shared by both command templates:
split the command string on single spaces, execute it, re-run the
lookup (against the post-creation account database), and on success
record and persist the identity. `pre` holds commands already issued
(the Alpine `addgroup`). -/
def createAndRelookup (env : OSEnv) (dvf : Bool) (fsFail : Option IOErr)
    (oldFile : Option PersistedDoc) (c : Configuration) (pre : List Cmd)
    (command : String) : EnsureResult :=
  match env.execFail (cmdOf command).prog (cmdOf command).args with
  | some e => { user := none, err := some (.exec e), cmds := pre ++ [cmdOf command], mem := c }
  | none =>
    match env.lookupAfterCreate c.System.Username with
    | .error e => { user := none, err := some (.lookup e), cmds := pre ++ [cmdOf command], mem := c }
    | .ok u =>
      { user := some u
        err := match (setSystemUser dvf fsFail oldFile c u).snd with
               | .ok _ => none
               | .error e => some (.persist e)
        cmds := pre ++ [cmdOf command]
        mem := (setSystemUser dvf fsFail oldFile c u).fst }

/-- `EnsurePterodactylUser` from `src/config/config.go`: look the account
up; on success record and persist it immediately (no command issued); on
`UnknownUserError` pick the creation command for the host system
(`adduser` preceded by `addgroup` on Alpine, `useradd` otherwise),
run it, and look the account up again; any other lookup error aborts. -/
def EnsurePterodactylUser (env : OSEnv) (dvf : Bool) (fsFail : Option IOErr)
    (oldFile : Option PersistedDoc) (c : Configuration) : EnsureResult :=
  match env.lookup c.System.Username with
  | .ok u =>
    { user := some u
      err := match (setSystemUser dvf fsFail oldFile c u).snd with
             | .ok _ => none
             | .error e => some (.persist e)
      cmds := []
      mem := (setSystemUser dvf fsFail oldFile c u).fst }
  | .error (.other e) => { user := none, err := some (.lookup (.other e)), cmds := [], mem := c }
  | .error .unknownUser =>
    match getSystemName env with
    | .error e => { user := none, err := some (.sysName e), cmds := [], mem := c }
    | .ok sysName =>
      if sysName.startsWith "alpine" then
        match env.execFail "addgroup" ["-S", c.System.Username] with
        | some e =>
          { user := none, err := some (.exec e)
            cmds := [{ prog := "addgroup", args := ["-S", c.System.Username] }], mem := c }
        | none =>
          createAndRelookup env dvf fsFail oldFile c
            [{ prog := "addgroup", args := ["-S", c.System.Username] }]
            ("adduser -S -D -H -G " ++ c.System.Username
              ++ " -s /bin/false " ++ c.System.Username)
      else
        createAndRelookup env dvf fsFail oldFile c []
          ("useradd --system --no-create-home --shell /bin/false " ++ c.System.Username)

/-! ### Permission reconciliation: `EnsureFilePermissions` -/

/-- A character matched by the regex class `[a-f0-9]` (lowercase hex). -/
def isLowerHex (ch : Char) : Bool :=
  ('a' ≤ ch && ch ≤ 'f') || ('0' ≤ ch && ch ≤ '9')

/-- A hyphen-free group of exactly `n` lowercase hex characters. -/
def hexGroup (g : String) (n : Nat) : Bool :=
  g.length == n && g.data.all isLowerHex

/-- The regex class `[89ab]` (the UUIDv4 variant nibble). -/
def isVariantNibble (ch : Char) : Bool :=
  ch == '8' || ch == '9' || ch == 'a' || ch == 'b'

/-- The anchored regex compiled in `EnsureFilePermissions`:
`[a-f0-9]` groups of lengths 8-4-4-4-12 joined by hyphens, with the third
group forced to start with `4` and the fourth with one of `89ab`.
Splitting on `-` yields exactly five hyphen-free pieces exactly when the
hyphens sit where the regex demands them (a hyphen is not lowercase
hex). -/
def uuidV4Match (s : String) : Bool :=
  match s.splitOn "-" with
  | [g1, g2, g3, g4, g5] =>
    hexGroup g1 8 && hexGroup g2 4 &&
    (match g3.data with
     | '4' :: r => r.length == 3 && r.all isLowerHex
     | _ => false) &&
    (match g4.data with
     | ch :: r => isVariantNibble ch && r.length == 3 && r.all isLowerHex
     | [] => false) &&
    hexGroup g5 12
  | _ => false

/-- One entry of the `ioutil.ReadDir` listing (the parts of `os.FileInfo`
the code reads: `Name()` and `IsDir()`). -/
structure FileInfo where
  name : String
  isDir : Bool
deriving DecidableEq, Repr

/-- The environment of one `EnsureFilePermissions` call: the listing of
the root data directory, account lookup, and which entries an `os.Chown`
attempt would fail on. -/
structure PermEnv where
  readDir : Except IOErr (List FileInfo)
  lookup : String → Except LookupErr OSUser
  chownFail : String → Option IOErr

/-- Errors surfaced by `EnsureFilePermissions`. -/
inductive PermErr where
  | readDir (e : IOErr)
  | lookup (e : LookupErr)
deriving DecidableEq, Repr

/-- The observable outcome of one `EnsureFilePermissions` call: the Go
return value, the entries on which `os.Chown` was invoked (the fan-out
completes before the call returns, so the goroutines' work is this
set, recorded in listing order), the numeric identity each chown used,
and the warnings logged for failed chowns. -/
structure PermResult where
  res : Except PermErr Unit
  chowns : List FileInfo
  chownIds : Option (Int × Int)
  warnings : List FileInfo
deriving Repr

/-- `EnsureFilePermissions` from `src/config/config.go`: a no-op unless
`SetPermissionsOnBoot` is configured; then list the data directory
(failure fatal), look up the configured account (failure fatal), and for
every listed entry that is a directory whose name matches the UUIDv4
regex, chown it to the account's Atoi-converted Uid/Gid; a failed chown
is logged and never surfaced. -/
def EnsureFilePermissions (env : PermEnv) (c : Configuration) : PermResult :=
  if !c.System.SetPermissionsOnBoot then
    { res := .ok (), chowns := [], chownIds := none, warnings := [] }
  else
    match env.readDir with
    | .error e => { res := .error (.readDir e), chowns := [], chownIds := none, warnings := [] }
    | .ok files =>
      match env.lookup c.System.Username with
      | .error e => { res := .error (.lookup e), chowns := [], chownIds := none, warnings := [] }
      | .ok su =>
        let targets := files.filter (fun f => f.isDir && uuidV4Match f.name)
        { res := .ok ()
          chowns := targets
          chownIds := some ((goAtoi su.Uid).fst, (goAtoi su.Gid).fst)
          warnings := targets.filter (fun f => (env.chownFail f.name).isSome) }

/-! ### Concrete sample inputs used to instantiate the theorems -/

/-- A representative `ApiConfiguration` (the documented defaults). -/
def sampleApi : ApiConfiguration :=
  { Host := "0.0.0.0", Port := 8080, Ssl := { Enabled := false, CertificateFile := "", KeyFile := "" }, UploadLimit := 100 }

/-- A representative throttle block (the documented defaults). -/
def sampleThrottles : ThrottleConfiguration :=
  { KillAtCount := 5, DecaySeconds := 10, BytesPerInterval := 4096, CheckInterval := 100 }

/-- A representative system block with the reconciler enabled. -/
def sampleSystem : SystemConfiguration :=
  { Username := "pterodactyl", User := { Uid := 0, Gid := 0 }, Data := "/srv/daemon-data", SetPermissionsOnBoot := true }

/-- A representative configuration snapshot loaded from the default path. -/
def sampleConfig : Configuration :=
  { path := DefaultLocation
    Debug := true
    Uuid := "3fa85f64-5717-4562-b3fc-2c963f66afa6"
    AuthenticationTokenId := "token-id"
    AuthenticationToken := "secret-token"
    Api := sampleApi
    System := sampleSystem
    DiskCheckTimeout := 30
    Throttles := sampleThrottles
    PanelLocation := "https://panel.example.com" }

/-- A second snapshot sharing `sampleConfig`'s token. -/
def sampleConfigB : Configuration :=
  { sampleConfig with Debug := false, Uuid := "different-node" }

/-- The on-disk document corresponding to `sampleConfig`. -/
def sampleDoc : PersistedDoc := yamlMarshal sampleConfig

/-- A resolved OS account with numeric id strings. -/
def sampleUser : OSUser := { Uid := "999", Gid := "998", Username := "pterodactyl" }

/-- An OS account whose Uid/Gid strings are not integer literals. -/
def sampleUserBadIds : OSUser := { Uid := "abc", Gid := "0x1f", Username := "pterodactyl" }

/-- The directory listing from the spec's reconciliation example: one
matching workload directory, one plain file, one non-matching
directory. -/
def sampleListing : List FileInfo :=
  [ { name := "a1b2c3d4-e5f6-4789-8abc-def012345678", isDir := true }
  , { name := "notadirectory.txt", isDir := false }
  , { name := "plain-folder", isDir := true } ]

/-- The matching workload directory from `sampleListing`. -/
def sampleWorkloadDir : FileInfo :=
  { name := "a1b2c3d4-e5f6-4789-8abc-def012345678", isDir := true }

/-- A reconciler environment where everything succeeds. -/
def samplePermEnv : PermEnv :=
  { readDir := .ok sampleListing, lookup := fun _ => .ok sampleUser, chownFail := fun _ => none }

/-- A reconciler environment where every chown attempt fails. -/
def failingChownEnv : PermEnv :=
  { readDir := .ok sampleListing, lookup := fun _ => .ok sampleUser
    chownFail := fun _ => some { msg := "operation not permitted" } }

/-- A reconciler environment where the listing succeeds but the account
lookup fails. -/
def lookupFailEnv : PermEnv :=
  { readDir := .ok [], lookup := fun _ => .error (.other { msg := "user: cache unavailable" })
    chownFail := fun _ => none }

/-- An OS environment where the account already exists. -/
def sampleOSEnv : OSEnv :=
  { lookup := fun _ => .ok sampleUser
    lookupAfterCreate := fun _ => .ok sampleUser
    osRelease := .ok "debian"
    execFail := fun _ _ => none }

/-! ### Theorems -/

/-- The recomputation guard of `Set` fires exactly when no snapshot was
active or the active snapshot's token differs by value. -/
theorem needsRecompute_eq_true_iff (s : GlobalState) (c : Configuration) :
    needsRecompute s c = true ↔
      (s.config = none ∨
        ∃ old, s.config = some old ∧ old.AuthenticationToken ≠ c.AuthenticationToken) := by
  unfold needsRecompute
  cases h : s.config with
  | none => simp
  | some old => simp [bne_iff_ne]

/-- C1: `Set` recomputes the derived JWT signing key — allocating a fresh
`HMACSHA` keyed by the incoming token — if and only if no configuration
was previously active or the incoming snapshot's `AuthenticationToken`
differs by value from the previously active snapshot's; consequently, for
snapshots A and B with identical tokens, `Set A` then `Set B` leaves the
derived key (identity included) unchanged. -/
theorem Set_recomputes_key_iff (s : GlobalState) (c : Configuration) :
    (((Set s c).nextAllocId = s.nextAllocId + 1 ∧
        (Set s c).jwtAlgo = some { allocId := s.nextAllocId, key := c.AuthenticationToken }) ↔
      (s.config = none ∨
        ∃ old, s.config = some old ∧ old.AuthenticationToken ≠ c.AuthenticationToken)) ∧
    (∀ A B : Configuration, A.AuthenticationToken = B.AuthenticationToken →
      (Set (Set s A) B).jwtAlgo = (Set s A).jwtAlgo) := by
  have hkeep : ∀ (s' : GlobalState) (c' : Configuration),
      needsRecompute s' c' = false → (Set s' c').jwtAlgo = s'.jwtAlgo := by
    intro s' c' h
    unfold Set
    rw [if_neg (by simp [h])]
  constructor
  · rw [← needsRecompute_eq_true_iff]
    unfold Set
    by_cases h : needsRecompute s c = true
    · rw [if_pos h]
      simp [h]
    · rw [if_neg h]
      simp [h]
  · intro A B hAB
    have hcfg : (Set s A).config = some A := by
      unfold Set
      split <;> rfl
    have hnr : needsRecompute (Set s A) B = false := by
      unfold needsRecompute
      rw [hcfg]
      simp [hAB]
    exact hkeep _ _ hnr

/-- Witness for C1: from the empty initial state the first `Set` derives
a key from the new token, and a second `Set` with the same token keeps
the key. -/
theorem Set_recomputes_key_iff_witness :
    ((Set initialState sampleConfig).nextAllocId = initialState.nextAllocId + 1 ∧
      (Set initialState sampleConfig).jwtAlgo
        = some { allocId := initialState.nextAllocId, key := sampleConfig.AuthenticationToken }) ∧
    (Set (Set initialState sampleConfig) sampleConfigB).jwtAlgo
      = (Set initialState sampleConfig).jwtAlgo :=
  ⟨(Set_recomputes_key_iff initialState sampleConfig).1.mpr (Or.inl rfl),
   (Set_recomputes_key_iff initialState sampleConfig).2 sampleConfig sampleConfigB rfl⟩

/-- A history with no `Set` call leaves both package-level pointers where
they started. -/
theorem runOps_noSet_preserves (ops : List StoreOp) :
    ∀ s : GlobalState, noSet ops →
      (runOps s ops).config = s.config ∧ (runOps s ops).jwtAlgo = s.jwtAlgo := by
  induction ops with
  | nil => exact fun s _ => ⟨rfl, rfl⟩
  | cons op rest ih =>
    intro s h
    cases op with
    | set c => exact absurd (List.mem_cons_self _ _) (h c)
    | setDebugViaFlag d =>
      have h' : noSet rest := fun c hc => h c (List.mem_cons_of_mem _ hc)
      simpa [runOps, SetDebugViaFlag] using ih (SetDebugViaFlag s d) h'

/-- C9: before the first completed `Set`, `Get` and `GetJwtAlgorithm`
both return the not-yet-initialized signal (the nil pointer, `none`)
rather than a valid snapshot or key. -/
theorem Get_before_first_Set (ops : List StoreOp) (h : noSet ops) :
    Get (runOps initialState ops) = none ∧
    GetJwtAlgorithm (runOps initialState ops) = none := by
  simpa [Get, GetJwtAlgorithm, initialState] using runOps_noSet_preserves ops initialState h

/-- Witness for C9: a history holding only a `SetDebugViaFlag` call. -/
theorem Get_before_first_Set_witness :
    Get (runOps initialState [StoreOp.setDebugViaFlag true]) = none ∧
    GetJwtAlgorithm (runOps initialState [StoreOp.setDebugViaFlag true]) = none :=
  Get_before_first_Set [StoreOp.setDebugViaFlag true] (by intro c hc; simp at hc)

/-- C2: with a non-empty path, `WriteToDisk` persists `debug: false`
whenever the process-wide debug-via-flag override is active, regardless
of the snapshot's `Debug` value, and persists the in-memory `Debug`
value verbatim when the override is inactive. The final observable file
state is the complete marshaled copy. -/
theorem WriteToDisk_debug_override (c : Configuration) (old : Option PersistedDoc)
    (h : c.path ≠ "") :
    ((WriteToDisk true none old c).observable
        = [old, none, some (yamlMarshal { c with Debug := false })] ∧
      (yamlMarshal { c with Debug := false }).debug = false) ∧
    ((WriteToDisk false none old c).observable = [old, none, some (yamlMarshal c)] ∧
      (yamlMarshal c).debug = c.Debug) := by
  unfold WriteToDisk
  simp [h, yamlMarshal]

/-- Witness for C2 at `sampleConfig`, whose in-memory `Debug` is true. -/
theorem WriteToDisk_debug_override_witness :
    ((WriteToDisk true none none sampleConfig).observable
        = [none, none, some (yamlMarshal { sampleConfig with Debug := false })] ∧
      (yamlMarshal { sampleConfig with Debug := false }).debug = false) ∧
    ((WriteToDisk false none none sampleConfig).observable
        = [none, none, some (yamlMarshal sampleConfig)] ∧
      (yamlMarshal sampleConfig).debug = sampleConfig.Debug) :=
  WriteToDisk_debug_override sampleConfig none (by decide)

/-- C8: `WriteToDisk` never mutates the in-memory snapshot — all mutation
targets the value copy — so in particular the in-memory `Debug` field
keeps its value even when the override forces the persisted field to
false, and every other field is unchanged. -/
theorem WriteToDisk_frame (dvf : Bool) (fsFail : Option IOErr) (old : Option PersistedDoc)
    (c : Configuration) :
    (WriteToDisk dvf fsFail old c).mem = c ∧
    (WriteToDisk dvf fsFail old c).mem.Debug = c.Debug := by
  have hmem : (WriteToDisk dvf fsFail old c).mem = c := by
    unfold WriteToDisk
    by_cases h : c.path = ""
    · simp [h]
    · cases fsFail <;> simp [h]
  exact ⟨hmem, by rw [hmem]⟩

/-- Counterexample to C6: with old content on disk and a successful write
from `sampleConfig`, a concurrent external reader can observe the
truncated (`none`) file state, which is neither the complete old content
nor the complete new content — `WriteToDisk` rewrites the file in place
via `ioutil.WriteFile` (O_TRUNC) with no temporary-file-and-rename. -/
theorem WriteToDisk_not_atomic :
    ¬ (∀ st ∈ (WriteToDisk false none (some (yamlMarshal sampleConfigB)) sampleConfig).observable,
        st = some (yamlMarshal sampleConfigB) ∨ st = some (yamlMarshal sampleConfig)) := by
  intro h
  have hmem : (none : Option PersistedDoc)
      ∈ (WriteToDisk false none (some (yamlMarshal sampleConfigB)) sampleConfig).observable := by
    simp [WriteToDisk, sampleConfig, DefaultLocation]
  rcases h none hmem with h' | h' <;> exact Option.noConfusion h'

/-- C6 amended: the file states observable by a concurrent external
reader during a successful `WriteToDisk` are exactly the complete old
content, the truncated (empty) file, and then the complete new content —
the write happens in place via truncate-then-write, so the intermediate
truncated state is visible in addition to old and new. -/
theorem WriteToDisk_observable_states (dvf : Bool) (old : Option PersistedDoc)
    (c : Configuration) (h : c.path ≠ "") :
    (WriteToDisk dvf none old c).observable
      = [old, none, some (yamlMarshal (if dvf then { c with Debug := false } else c))] := by
  unfold WriteToDisk
  cases dvf <;> simp [h]

/-- Witness for the amended C6 at `sampleConfig`. -/
theorem WriteToDisk_observable_states_witness :
    (WriteToDisk false none (some sampleDoc) sampleConfig).observable
      = [some sampleDoc, none,
          some (yamlMarshal (if false then { sampleConfig with Debug := false } else sampleConfig))] :=
  WriteToDisk_observable_states false (some sampleDoc) sampleConfig (by decide)

/-- C3: with the feature enabled and both the directory listing and the
account lookup successful, `EnsureFilePermissions` attempts an ownership
change on a listed entry if and only if the entry is a directory and its
name matches the compiled UUIDv4 regex; all other entries are skipped and
the call returns no error. -/
theorem EnsureFilePermissions_chown_iff (env : PermEnv) (c : Configuration)
    (files : List FileInfo) (su : OSUser)
    (hb : c.System.SetPermissionsOnBoot = true)
    (hl : env.readDir = .ok files)
    (hu : env.lookup c.System.Username = .ok su) :
    (∀ f : FileInfo, f ∈ (EnsureFilePermissions env c).chowns ↔
        f ∈ files ∧ f.isDir = true ∧ uuidV4Match f.name = true) ∧
    (EnsureFilePermissions env c).res = .ok () := by
  simp [EnsureFilePermissions, hb, hl, hu, List.mem_filter, and_assoc]

/-- Witness for C3: on the spec's example listing, the canonical UUIDv4
directory is chowned (and the iff holds for it) and the call succeeds. -/
theorem EnsureFilePermissions_chown_iff_witness :
    (sampleWorkloadDir ∈ (EnsureFilePermissions samplePermEnv sampleConfig).chowns ↔
      sampleWorkloadDir ∈ sampleListing ∧ sampleWorkloadDir.isDir = true ∧
        uuidV4Match sampleWorkloadDir.name = true) ∧
    (EnsureFilePermissions samplePermEnv sampleConfig).res = .ok () :=
  ⟨(EnsureFilePermissions_chown_iff samplePermEnv sampleConfig sampleListing sampleUser
      rfl rfl rfl).1 sampleWorkloadDir,
   (EnsureFilePermissions_chown_iff samplePermEnv sampleConfig sampleListing sampleUser
      rfl rfl rfl).2⟩

/-- Counterexample to C4: the feature is enabled and the listing has
succeeded, yet the call returns an error, because the account lookup —
which runs after the listing — failed. A successful listing alone does
not guarantee an error-free return. -/
theorem EnsureFilePermissions_listing_not_sufficient :
    sampleConfig.System.SetPermissionsOnBoot = true ∧
    lookupFailEnv.readDir = .ok [] ∧
    (EnsureFilePermissions lookupFailEnv sampleConfig).res
      = .error (.lookup (.other { msg := "user: cache unavailable" })) ∧
    (EnsureFilePermissions lookupFailEnv sampleConfig).res ≠ .ok () := by
  refine ⟨rfl, rfl, rfl, ?_⟩
  simp [EnsureFilePermissions, lookupFailEnv, sampleConfig, sampleSystem]

/-- C4 amended: once both the listing of the root data directory and the
username lookup have succeeded, `EnsureFilePermissions` returns without
error regardless of how many individual per-directory ownership changes
fail; those failures are only logged as warnings. -/
theorem EnsureFilePermissions_ok_after_listing_and_lookup (env : PermEnv) (c : Configuration)
    (files : List FileInfo) (su : OSUser)
    (hb : c.System.SetPermissionsOnBoot = true)
    (hl : env.readDir = .ok files)
    (hu : env.lookup c.System.Username = .ok su) :
    (EnsureFilePermissions env c).res = .ok () ∧
    (EnsureFilePermissions env c).warnings
      = (EnsureFilePermissions env c).chowns.filter (fun f => (env.chownFail f.name).isSome) := by
  simp [EnsureFilePermissions, hb, hl, hu]

/-- Witness for the amended C4: every chown attempt fails, the call still
succeeds and the failures end up in the warnings log. -/
theorem EnsureFilePermissions_ok_after_listing_and_lookup_witness :
    (EnsureFilePermissions failingChownEnv sampleConfig).res = .ok () ∧
    (EnsureFilePermissions failingChownEnv sampleConfig).warnings
      = (EnsureFilePermissions failingChownEnv sampleConfig).chowns.filter
          (fun f => (failingChownEnv.chownFail f.name).isSome) :=
  EnsureFilePermissions_ok_after_listing_and_lookup failingChownEnv sampleConfig
    sampleListing sampleUser rfl rfl rfl

/-- When the initial lookup succeeds, `EnsurePterodactylUser` returns
that record, issues no command, and records the converted identity into
the snapshot. -/
theorem EnsurePterodactylUser_lookup_ok (env : OSEnv) (dvf : Bool) (fsFail : Option IOErr)
    (old : Option PersistedDoc) (c : Configuration) (u : OSUser)
    (h : env.lookup c.System.Username = .ok u) :
    (EnsurePterodactylUser env dvf fsFail old c).user = some u ∧
    (EnsurePterodactylUser env dvf fsFail old c).cmds = [] ∧
    (EnsurePterodactylUser env dvf fsFail old c).mem
      = { c with System := { c.System with
            Username := u.Username
            User := { Uid := (goAtoi u.Uid).fst, Gid := (goAtoi u.Gid).fst } } } := by
  unfold EnsurePterodactylUser
  rw [h]
  exact ⟨rfl, rfl, rfl⟩

/-- C5: identity provisioning is idempotent. For every account name whose
OS lookup succeeds, `EnsurePterodactylUser` returns that account's record
without issuing any account- or group-creation command, and a second call
on the resulting snapshot returns the same record, again issues no
command, and leaves the recorded numeric identifiers identical. -/
theorem EnsurePterodactylUser_idempotent (env : OSEnv) (dvf dvf2 : Bool)
    (fsFail fsFail2 : Option IOErr) (old old2 : Option PersistedDoc)
    (c : Configuration) (u : OSUser)
    (h1 : env.lookup c.System.Username = .ok u)
    (h2 : env.lookup u.Username = .ok u) :
    ((EnsurePterodactylUser env dvf fsFail old c).user = some u ∧
      (EnsurePterodactylUser env dvf fsFail old c).cmds = []) ∧
    ((EnsurePterodactylUser env dvf2 fsFail2 old2
        (EnsurePterodactylUser env dvf fsFail old c).mem).user = some u ∧
      (EnsurePterodactylUser env dvf2 fsFail2 old2
        (EnsurePterodactylUser env dvf fsFail old c).mem).cmds = [] ∧
      (EnsurePterodactylUser env dvf2 fsFail2 old2
        (EnsurePterodactylUser env dvf fsFail old c).mem).mem.System.User
        = (EnsurePterodactylUser env dvf fsFail old c).mem.System.User) := by
  obtain ⟨hu1, hc1, hm1⟩ := EnsurePterodactylUser_lookup_ok env dvf fsFail old c u h1
  have h1' : env.lookup (EnsurePterodactylUser env dvf fsFail old c).mem.System.Username
      = .ok u := by
    rw [hm1]
    exact h2
  obtain ⟨hu2, hc2, hm2⟩ :=
    EnsurePterodactylUser_lookup_ok env dvf2 fsFail2 old2
      (EnsurePterodactylUser env dvf fsFail old c).mem u h1'
  refine ⟨⟨hu1, hc1⟩, hu2, hc2, ?_⟩
  rw [hm2, hm1]

/-- Witness for C5 at a concrete environment and snapshot. -/
theorem EnsurePterodactylUser_idempotent_witness :
    ((EnsurePterodactylUser sampleOSEnv false none none sampleConfig).user = some sampleUser ∧
      (EnsurePterodactylUser sampleOSEnv false none none sampleConfig).cmds = []) ∧
    ((EnsurePterodactylUser sampleOSEnv false none none
        (EnsurePterodactylUser sampleOSEnv false none none sampleConfig).mem).user
          = some sampleUser ∧
      (EnsurePterodactylUser sampleOSEnv false none none
        (EnsurePterodactylUser sampleOSEnv false none none sampleConfig).mem).cmds = [] ∧
      (EnsurePterodactylUser sampleOSEnv false none none
        (EnsurePterodactylUser sampleOSEnv false none none sampleConfig).mem).mem.System.User
        = (EnsurePterodactylUser sampleOSEnv false none none sampleConfig).mem.System.User) :=
  EnsurePterodactylUser_idempotent sampleOSEnv false false none none none none
    sampleConfig sampleUser rfl rfl

/-- The snapshot `setSystemUser` builds before persisting. -/
theorem setSystemUser_fst (dvf : Bool) (fsFail : Option IOErr) (old : Option PersistedDoc)
    (c : Configuration) (u : OSUser) :
    (setSystemUser dvf fsFail old c u).fst
      = { c with System := { c.System with
            Username := u.Username
            User := { Uid := (goAtoi u.Uid).fst, Gid := (goAtoi u.Gid).fst } } } := rfl

/-- In the creation path, a persistence failure after a successful
re-lookup is surfaced as the call's error, with the snapshot already
updated. -/
theorem createAndRelookup_persist_failure (env : OSEnv) (dvf : Bool) (fsFail : Option IOErr)
    (old : Option PersistedDoc) (c : Configuration) (pre : List Cmd) (command : String)
    (u : OSUser) (e : WriteErr)
    (hu : (createAndRelookup env dvf fsFail old c pre command).user = some u)
    (hw : (setSystemUser dvf fsFail old c u).snd = .error e) :
    (createAndRelookup env dvf fsFail old c pre command).err = some (.persist e) ∧
    (createAndRelookup env dvf fsFail old c pre command).mem
      = (setSystemUser dvf fsFail old c u).fst := by
  cases hx : env.execFail (cmdOf command).prog (cmdOf command).args with
  | some e' => simp [createAndRelookup, hx] at hu
  | none =>
    cases hlu : env.lookupAfterCreate c.System.Username with
    | error e' => simp [createAndRelookup, hx, hlu] at hu
    | ok u' =>
      have huu : u' = u := by simpa [createAndRelookup, hx, hlu] using hu
      subst huu
      simp [createAndRelookup, hx, hlu, hw, setSystemUser_fst]

/-- C7: whenever `EnsurePterodactylUser` resolves a user record (by
lookup or by creation) and persisting the updated snapshot fails, the
call returns that persistence error, even though the OS-level account
exists and the in-memory snapshot has already been updated with the
record's name and converted numeric identifiers. -/
theorem EnsurePterodactylUser_surfaces_persist_failure (env : OSEnv) (dvf : Bool)
    (fsFail : Option IOErr) (old : Option PersistedDoc) (c : Configuration)
    (u : OSUser) (e : WriteErr)
    (hu : (EnsurePterodactylUser env dvf fsFail old c).user = some u)
    (hw : (setSystemUser dvf fsFail old c u).snd = .error e) :
    (EnsurePterodactylUser env dvf fsFail old c).err = some (.persist e) ∧
    (EnsurePterodactylUser env dvf fsFail old c).mem.System.Username = u.Username ∧
    (EnsurePterodactylUser env dvf fsFail old c).mem.System.User.Uid = (goAtoi u.Uid).fst ∧
    (EnsurePterodactylUser env dvf fsFail old c).mem.System.User.Gid = (goAtoi u.Gid).fst := by
  cases hl : env.lookup c.System.Username with
  | ok u' =>
    have huu : u' = u := by simpa [EnsurePterodactylUser, hl] using hu
    subst huu
    simp [EnsurePterodactylUser, hl, hw, setSystemUser_fst]
  | error el =>
    cases el with
    | other e' => simp [EnsurePterodactylUser, hl] at hu
    | unknownUser =>
      cases ho : env.osRelease with
      | error e' => simp [EnsurePterodactylUser, getSystemName, hl, ho] at hu
      | ok sysName =>
        by_cases ha : sysName.startsWith "alpine" = true
        · cases hg : env.execFail "addgroup" ["-S", c.System.Username] with
          | some e'' => simp [EnsurePterodactylUser, getSystemName, hl, ho, ha, hg] at hu
          | none =>
            have hu' : (createAndRelookup env dvf fsFail old c
                [{ prog := "addgroup", args := ["-S", c.System.Username] }]
                ("adduser -S -D -H -G " ++ c.System.Username ++ " -s /bin/false "
                  ++ c.System.Username)).user = some u := by
              simpa [EnsurePterodactylUser, getSystemName, hl, ho, ha, hg] using hu
            obtain ⟨he, hm⟩ :=
              createAndRelookup_persist_failure env dvf fsFail old c _ _ u e hu' hw
            simp [EnsurePterodactylUser, getSystemName, hl, ho, ha, hg, he, hm, setSystemUser_fst]
        · have hu' : (createAndRelookup env dvf fsFail old c []
              ("useradd --system --no-create-home --shell /bin/false "
                ++ c.System.Username)).user = some u := by
            simpa [EnsurePterodactylUser, getSystemName, hl, ho, ha] using hu
          obtain ⟨he, hm⟩ :=
            createAndRelookup_persist_failure env dvf fsFail old c _ _ u e hu' hw
          simp [EnsurePterodactylUser, getSystemName, hl, ho, ha, he, hm, setSystemUser_fst]

/-- Witness for C7: the account exists but the file write fails, so the
call reports the persistence error while the snapshot carries the new
identity. -/
theorem EnsurePterodactylUser_surfaces_persist_failure_witness :
    (EnsurePterodactylUser sampleOSEnv false (some { msg := "disk full" }) none
        sampleConfig).err = some (.persist (.ioError { msg := "disk full" })) ∧
    (EnsurePterodactylUser sampleOSEnv false (some { msg := "disk full" }) none
        sampleConfig).mem.System.Username = sampleUser.Username ∧
    (EnsurePterodactylUser sampleOSEnv false (some { msg := "disk full" }) none
        sampleConfig).mem.System.User.Uid = (goAtoi sampleUser.Uid).fst ∧
    (EnsurePterodactylUser sampleOSEnv false (some { msg := "disk full" }) none
        sampleConfig).mem.System.User.Gid = (goAtoi sampleUser.Gid).fst :=
  EnsurePterodactylUser_surfaces_persist_failure sampleOSEnv false
    (some { msg := "disk full" }) none sampleConfig sampleUser
    (.ioError { msg := "disk full" }) rfl rfl

/-- A syntax error from `strconv.Atoi` comes with the value zero. -/
theorem goAtoi_syntax_eq_zero (s : String) (h : (goAtoi s).snd = some .syntaxError) :
    (goAtoi s).fst = 0 := by
  unfold goAtoi at h ⊢
  cases hD : digitsVal? (splitSign s.data).snd with
  | none => rfl
  | some n =>
    exfalso
    rw [hD] at h
    simp only [] at h
    split at h <;> split at h <;> first
      | (split at h <;> simp_all)
      | simp_all

/-- C10: when a user record's Uid or Gid string is not an integer
literal, `setSystemUser` silently records 0 for that identifier — the
`strconv.Atoi` error is discarded — and still proceeds to persist the
snapshot, surfacing no lookup or parse error. -/
theorem setSystemUser_silent_zero (dvf : Bool) (old : Option PersistedDoc)
    (c : Configuration) (u : OSUser) (hp : c.path ≠ "") :
    ((goAtoi u.Uid).snd = some .syntaxError →
      (setSystemUser dvf none old c u).fst.System.User.Uid = 0) ∧
    ((goAtoi u.Gid).snd = some .syntaxError →
      (setSystemUser dvf none old c u).fst.System.User.Gid = 0) ∧
    (setSystemUser dvf none old c u).snd = .ok () := by
  refine ⟨?_, ?_, ?_⟩
  · intro h
    exact goAtoi_syntax_eq_zero _ h
  · intro h
    exact goAtoi_syntax_eq_zero _ h
  · simp [setSystemUser, WriteToDisk, hp]

/-- Witness for C10: Uid "abc" and Gid "0x1f" are not integer literals;
both identifiers are recorded as 0 and the snapshot is persisted without
error. -/
theorem setSystemUser_silent_zero_witness :
    (setSystemUser false none none sampleConfig sampleUserBadIds).fst.System.User.Uid = 0 ∧
    (setSystemUser false none none sampleConfig sampleUserBadIds).fst.System.User.Gid = 0 ∧
    (setSystemUser false none none sampleConfig sampleUserBadIds).snd = .ok () :=
  have h := setSystemUser_silent_zero false none sampleConfig sampleUserBadIds (by decide)
  ⟨h.1 (by decide), h.2.1 (by decide), h.2.2⟩

end Config
